import Mathlib

/-!
Shallow embedding of the beef crate (src/lib.rs): a compact copy-on-write
container holding a borrowed view plus an optional nonzero capacity.

The owned form (Rust String / Vec) is modelled as an allocation record with
a data list and a reserved capacity.  Both built-in Beef implementations
(str and a slice of clonable elements) are structurally identical, so a
single generic model over an element type suffices; str instantiates the
element type with Char.  Allocator-level effects of drop and into_owned are
modelled as explicit event traces.
-/

/-- A Rust owned growable allocation (String or Vec): the stored data and the
reserved capacity.  Real Rust allocations always satisfy data length at most
capacity; theorems take that as a hypothesis where they need it. -/
structure Alloc (α : Type) where
  data : List α
  cap : Nat
deriving DecidableEq

/-- NonZeroUsize.new: some n when n is nonzero, else none. -/
def nonZeroNew (n : Nat) : Option Nat :=
  if n = 0 then none else some n

/-- Beef.capacity for str and for slices: NonZeroUsize.new of the owned
allocation's capacity. -/
def Beef.capacity (owned : Alloc α) : Option Nat :=
  nonZeroNew owned.cap

/-- Beef.rebuild: reassemble an owned allocation from a view and a capacity
(Vec.from_raw_parts of the view's pointer, its length, and the capacity):
the result holds exactly the view's data with the given capacity. -/
def Beef.rebuild (view : List α) (capacity : Nat) : Alloc α :=
  { data := view, cap := capacity }

/-- ToOwned.to_owned on a borrowed view: a fresh allocation holding a copy of
the data, allocated with capacity equal to the length. -/
def Beef.toOwned (view : List α) : Alloc α :=
  { data := view, cap := view.length }

/-- beef.Cow: one borrowed view (pointer plus length) and one optional
nonzero capacity; no separate discriminant. -/
structure Cow (α : Type) where
  inner : List α
  capacity : Option Nat
deriving DecidableEq

/-- Cow.owned: absorb an owned allocation — the view borrows the allocation's
data, the capacity field is Beef.capacity of it, and mem.forget suppresses
the allocation's own destructor (no allocator event happens here). -/
def Cow.owned (val : Alloc α) : Cow α :=
  { inner := val.data, capacity := Beef.capacity val }

/-- Cow.borrowed: wrap a plain view with no capacity. -/
def Cow.borrowed (val : List α) : Cow α :=
  { inner := val, capacity := none }

/-- Cow.into_owned: consume the container (mem.forget suppresses its
destructor); when capacity is present, rebuild the allocation from the view
and that capacity; otherwise copy the borrowed data into a fresh allocation. -/
def Cow.into_owned (c : Cow α) : Alloc α :=
  match c.capacity with
  | some capacity => Beef.rebuild c.inner capacity
  | none => Beef.toOwned c.inner

/-- Observable allocator-level events of a container operation. -/
inductive Event (α : Type) where
  | rebuild (view : List α) (cap : Nat)
  | free (a : Alloc α)
  | allocFresh (data : List α)
deriving DecidableEq

/-- Drop.drop: when capacity is present, rebuild the allocation from the view
and the capacity and immediately release it; when absent, do nothing. -/
def Cow.dropEvents (c : Cow α) : List (Event α) :=
  match c.capacity with
  | some capacity =>
      [Event.rebuild c.inner capacity, Event.free (Beef.rebuild c.inner capacity)]
  | none => []

/-- The allocator events of Cow.into_owned: when capacity is present, one
rebuild whose result is handed off to the caller (the container frees
nothing, since mem.forget suppressed its destructor); when absent, one fresh
allocation for the copy. -/
def Cow.intoOwnedEvents (c : Cow α) : List (Event α) :=
  match c.capacity with
  | some capacity => [Event.rebuild c.inner capacity]
  | none => [Event.allocFresh c.inner]

/-- The two ways a container's lifetime can end: implicit destruction, or
explicit conversion by into_owned.  Exactly one of them happens per lifetime:
into_owned calls mem.forget on self, so the destructor never also runs. -/
inductive Terminal where
  | dropped
  | intoOwned
deriving DecidableEq

/-- The allocator events a container emits over its whole lifetime, given
which terminal ends it. -/
def Cow.lifetimeEvents (c : Cow α) : Terminal → List (Event α)
  | .dropped => c.dropEvents
  | .intoOwned => c.intoOwnedEvents

def Event.isRebuild : Event α → Bool
  | .rebuild _ _ => true
  | _ => false

def Event.isFree : Event α → Bool
  | .free _ => true
  | _ => false

/-- Number of reconstruction events in a trace. -/
def rebuildCount (es : List (Event α)) : Nat :=
  (es.filter Event.isRebuild).length

/-- Number of deallocation events in a trace. -/
def freeCount (es : List (Event α)) : Nat :=
  (es.filter Event.isFree).length

/-- Clone.clone: when capacity is present, duplicate the data with to_owned
and absorb the fresh allocation through Cow.owned; when absent, copy the
borrow bitwise (view shared, capacity stays none). -/
def Cow.clone (c : Cow α) : Cow α :=
  match c.capacity with
  | some _ => Cow.owned (Beef.toOwned c.inner)
  | none => c

/-- Deref.deref: returns the stored view. -/
def Cow.deref (c : Cow α) : List α :=
  c.inner

/-- AsRef.as_ref: returns the stored view. -/
def Cow.as_ref (c : Cow α) : List α :=
  c.inner

/-- Borrow.borrow: returns the stored view. -/
def Cow.borrow (c : Cow α) : List α :=
  c.inner

/-- PartialEq.eq between two containers: delegates to elementwise equality of
the stored views (other.as_ref is the other container's view). -/
def Cow.beq [DecidableEq α] (a b : Cow α) : Bool :=
  a.inner == b.inner

/-- Hash.hash: feed the stored view into the hasher state; the hasher is
modelled as an arbitrary state transformer over views. -/
def Cow.hashWith (f : List α → σ → σ) (c : Cow α) (state : σ) : σ :=
  f c.inner state

/-- C1: Owned round-trip — for an owned allocation a whose length is at most
its capacity, into_owned of Cow.owned a returns an allocation holding exactly
a's data, with reserved capacity at least that data's length. -/
theorem owned_roundtrip (a : Alloc α) (h : a.data.length ≤ a.cap) :
    (Cow.owned a).into_owned.data = a.data ∧
    a.data.length ≤ (Cow.owned a).into_owned.cap := by
  rcases a with ⟨d, c⟩
  by_cases hc : c = 0 <;>
    simp_all [Cow.owned, Cow.into_owned, Beef.capacity, nonZeroNew,
      Beef.rebuild, Beef.toOwned]

theorem owned_roundtrip_witness :
    ([1, 2].length ≤ 5) ∧
    ((Cow.owned (⟨[1, 2], 5⟩ : Alloc Nat)).into_owned.data = [1, 2] ∧
     [1, 2].length ≤ (Cow.owned (⟨[1, 2], 5⟩ : Alloc Nat)).into_owned.cap) :=
  ⟨by decide, owned_roundtrip ⟨[1, 2], 5⟩ (by decide)⟩

/-- C2: Borrow transparency — dereferencing Cow.borrowed r yields exactly r,
and dropping a borrowed container emits no allocator events at all (in
particular no deallocation). -/
theorem borrow_transparency (r : List α) :
    Cow.deref (Cow.borrowed r) = r ∧ Cow.dropEvents (Cow.borrowed r) = [] :=
  ⟨rfl, rfl⟩

/-- C3: Exactly-once ownership discharge — a container holding a capacity
performs exactly one reconstruction over its lifetime whichever terminal ends
it; the drop terminal additionally frees the rebuilt allocation exactly once,
while into_owned hands it off and frees nothing. -/
theorem exactly_once_discharge (c : Cow α) (k : Nat) (h : c.capacity = some k) :
    (∀ t : Terminal, rebuildCount (c.lifetimeEvents t) = 1) ∧
    freeCount c.dropEvents = 1 ∧
    freeCount c.intoOwnedEvents = 0 := by
  refine ⟨fun t => ?_, ?_, ?_⟩ <;>
    first
      | cases t <;>
          simp [Cow.lifetimeEvents, Cow.dropEvents, Cow.intoOwnedEvents, h,
            rebuildCount, Event.isRebuild, List.filter]
      | simp [Cow.dropEvents, Cow.intoOwnedEvents, h, freeCount,
          Event.isFree, List.filter]

theorem exactly_once_discharge_witness :
    ((Cow.owned (⟨[7], 3⟩ : Alloc Nat)).capacity = some 3) ∧
    ((∀ t : Terminal,
        rebuildCount ((Cow.owned (⟨[7], 3⟩ : Alloc Nat)).lifetimeEvents t) = 1) ∧
     freeCount (Cow.owned (⟨[7], 3⟩ : Alloc Nat)).dropEvents = 1 ∧
     freeCount (Cow.owned (⟨[7], 3⟩ : Alloc Nat)).intoOwnedEvents = 0) :=
  ⟨by decide, exactly_once_discharge (Cow.owned ⟨[7], 3⟩) 3 (by decide)⟩

/-- C4 counterexample: a container built by Cow.owned from an owned
allocation whose reported capacity is zero does not have its capacity field
present, refuting "present whenever it was built by owned from an owned
allocation". -/
theorem capacity_presence_counterexample :
    ¬ ((Cow.owned (⟨[], 0⟩ : Alloc Nat)).capacity.isSome = true) := by
  decide

/-- C4 amended: the capacity field is absent whenever the container was built
by borrowed; when built by owned, it is present exactly when the absorbed
allocation's reported capacity is nonzero, in which case it stores that
capacity. -/
theorem capacity_presence (r : List α) (a : Alloc α) :
    (Cow.borrowed r).capacity = none ∧
    ((Cow.owned a).capacity.isSome ↔ 0 < a.cap) ∧
    (0 < a.cap → (Cow.owned a).capacity = some a.cap) := by
  refine ⟨rfl, ?_, ?_⟩ <;>
    rcases a with ⟨d, c⟩ <;>
    by_cases hc : c = 0 <;>
    simp [Cow.owned, Beef.capacity, nonZeroNew, hc, Nat.pos_of_ne_zero]

theorem capacity_presence_witness :
    (0 < (2 : Nat)) ∧ (Cow.owned (⟨[1], 2⟩ : Alloc Nat)).capacity = some 2 :=
  ⟨by decide, (capacity_presence [1] ⟨[1], 2⟩).2.2 (by decide)⟩

/-- C5: Zero-capacity degenerate case — absorbing an owned allocation whose
reported capacity is zero yields a container identical to a borrow of its
data (capacity stored as absent), so dropping it emits no allocator events
and in particular no deallocation call. -/
theorem zero_capacity_degenerate (d : List α) :
    Cow.owned (⟨d, 0⟩ : Alloc α) = Cow.borrowed d ∧
    (Cow.owned (⟨d, 0⟩ : Alloc α)).dropEvents = [] :=
  ⟨rfl, rfl⟩

/-- C6: Exact capacity preservation — absorbing the text buffer "hello" with
reserved capacity 10 yields a container whose visible data is "hello", and
into_owned on it returns the buffer with data "hello" and capacity exactly
10. -/
theorem hello_capacity_ten :
    (Cow.owned (⟨"hello".toList, 10⟩ : Alloc Char)).inner = "hello".toList ∧
    (Cow.owned (⟨"hello".toList, 10⟩ : Alloc Char)).into_owned =
      (⟨"hello".toList, 10⟩ : Alloc Char) :=
  ⟨rfl, rfl⟩

/-- C7: Clone semantics — a clone always observes the same data as the
original; when capacity is present the clone is a fresh copy of the data
absorbed as a new owned allocation (duplicate-then-absorb), and when capacity
is absent the clone is the very same borrow, capacity still absent. -/
theorem clone_semantics (c : Cow α) :
    c.clone.inner = c.inner ∧
    c.clone = (if c.capacity.isSome then Cow.owned (Beef.toOwned c.inner) else c) := by
  rcases c with ⟨d, cap⟩
  cases cap <;>
    simp [Cow.clone, Cow.owned, Beef.toOwned, Beef.capacity]

/-- C8: Equality ignores representation — a container borrowing data d
compares equal to a container that absorbed an owned copy of d, in both
orders, whatever that copy's capacity. -/
theorem eq_ignores_representation [DecidableEq α] (d : List α) (a : Alloc α)
    (h : a.data = d) :
    Cow.beq (Cow.borrowed d) (Cow.owned a) = true ∧
    Cow.beq (Cow.owned a) (Cow.borrowed d) = true := by
  simp [Cow.beq, Cow.borrowed, Cow.owned, h]

theorem eq_ignores_representation_witness :
    ((⟨[1, 2], 7⟩ : Alloc Nat).data = [1, 2]) ∧
    (Cow.beq (Cow.borrowed [1, 2]) (Cow.owned (⟨[1, 2], 7⟩ : Alloc Nat)) = true ∧
     Cow.beq (Cow.owned (⟨[1, 2], 7⟩ : Alloc Nat)) (Cow.borrowed [1, 2]) = true) :=
  ⟨by decide, eq_ignores_representation [1, 2] ⟨[1, 2], 7⟩ (by decide)⟩

/-- C9: Hash consistency — for any hasher, hashing Cow.borrowed r updates the
state exactly as hashing r itself does, and so does hashing a container that
absorbed an owned copy of r: hashing delegates to the stored view. -/
theorem hash_consistency (f : List α → σ → σ) (r : List α) (a : Alloc α)
    (h : a.data = r) (state : σ) :
    Cow.hashWith f (Cow.borrowed r) state = f r state ∧
    Cow.hashWith f (Cow.owned a) state = f r state := by
  simp [Cow.hashWith, Cow.borrowed, Cow.owned, h]

theorem hash_consistency_witness :
    ((⟨[1, 2], 9⟩ : Alloc Nat).data = [1, 2]) ∧
    (Cow.hashWith (fun l s => s + l.length) (Cow.borrowed [1, 2]) 0 =
       (fun (l : List Nat) (s : Nat) => s + l.length) [1, 2] 0 ∧
     Cow.hashWith (fun l s => s + l.length) (Cow.owned (⟨[1, 2], 9⟩ : Alloc Nat)) 0 =
       (fun (l : List Nat) (s : Nat) => s + l.length) [1, 2] 0) :=
  ⟨by decide,
   hash_consistency (fun l s => s + l.length) [1, 2] ⟨[1, 2], 9⟩ (by decide) 0⟩

/-- C10: Accessor agreement — deref, as_ref and borrow all return the stored
view, hence agree with each other on every container. -/
theorem accessor_agreement (c : Cow α) :
    c.deref = c.inner ∧ c.as_ref = c.inner ∧ c.borrow = c.inner :=
  ⟨rfl, rfl, rfl⟩
